import Mathlib

/-!
Shallow embedding of the WYD job-queue subsystem (src/app/queue_manager.py and
src/app/workers.py).

The queue manager talks to three external stores through async clients:
a fast queue store (Redis lists), a durable log (a Kafka producer) and a
job-status store (Redis string keys with TTL).  The embedding models the
world these clients act on as an explicit `Store` record, and every store
interaction as a function returning `Except String α × Store`: an exception
raised by a client call is an `Except.error`, and the state component is
returned in both cases, because side effects performed before a Python
exception persist.  Client absence (core.get_redis or get_kafka_producer
returning None) is the `redisAvail` / `kafkaAvail` flag; a configured client
whose call raises (network error) is modelled by one fault flag per client
call site (`lpushFail`, `expireFail`, `sendFail`, `setexFail`, `rpopFail`,
`getFail`), so that a single call can fail while the others succeed, as with
transient network errors.

Serialization (json.dumps / json.loads) is modelled by the `Entry` type: a
dumped job is `Entry.ser j` and always parses back to `j`; a byte string that
is not the dump of a job is `Entry.malformed s` and fails to parse
(json.JSONDecodeError).  The job payload, opaque to the queue manager, is a
string-keyed mapping modelled as an association list.  Wall-clock values
(datetime.utcnow) and the generated job id (timestamp and hash based) are
environmental inputs and are passed as parameters.
-/

namespace WYD

/-- The eight queue types of queue_manager.py (class QueueType). -/
inductive QueueType where
  | FRIEND_REQUESTS
  | MESSAGES
  | NOTIFICATIONS
  | USER_ACTIVITY
  | MEDIA_PROCESSING
  | EMAIL_NOTIFICATIONS
  | PUSH_NOTIFICATIONS
  | ANALYTICS
deriving DecidableEq, Repr

/-- The string value of each QueueType member. -/
def QueueType.value : QueueType → String
  | .FRIEND_REQUESTS => "friend_requests"
  | .MESSAGES => "messages"
  | .NOTIFICATIONS => "notifications"
  | .USER_ACTIVITY => "user_activity"
  | .MEDIA_PROCESSING => "media_processing"
  | .EMAIL_NOTIFICATIONS => "email_notifications"
  | .PUSH_NOTIFICATIONS => "push_notifications"
  | .ANALYTICS => "analytics"

/-- Message priority levels (class Priority). -/
inductive Priority where
  | LOW
  | NORMAL
  | HIGH
  | CRITICAL
deriving DecidableEq, Repr

/-- The integer value of each Priority member. -/
def Priority.val : Priority → Nat
  | .LOW => 1
  | .NORMAL => 2
  | .HIGH => 3
  | .CRITICAL => 4

/-- QueueManager.kafka_topics: durable-log topic per queue type. -/
def kafkaTopics : QueueType → String
  | .FRIEND_REQUESTS => "friend-requests-queue"
  | .MESSAGES => "messages-queue"
  | .NOTIFICATIONS => "notifications-queue"
  | .USER_ACTIVITY => "user-activity-queue"
  | .MEDIA_PROCESSING => "media-processing-queue"
  | .EMAIL_NOTIFICATIONS => "email-notifications-queue"
  | .PUSH_NOTIFICATIONS => "push-notifications-queue"
  | .ANALYTICS => "analytics-queue"

/-- QueueManager.redis_queues: fast-queue list name per queue type. -/
def redisQueues : QueueType → String
  | .FRIEND_REQUESTS => "queue:friend_requests"
  | .MESSAGES => "queue:messages"
  | .NOTIFICATIONS => "queue:notifications"
  | .USER_ACTIVITY => "queue:user_activity"
  | .MEDIA_PROCESSING => "queue:media_processing"
  | .EMAIL_NOTIFICATIONS => "queue:email_notifications"
  | .PUSH_NOTIFICATIONS => "queue:push_notifications"
  | .ANALYTICS => "queue:analytics"

/-- Job payload: an arbitrary string-keyed mapping, opaque to the manager. -/
def Payload := List (String × String)
deriving instance DecidableEq, Repr for Payload

/-- The job_data dictionary built by QueueManager.enqueue, plus the two keys
(updated_at, result) that update_job_status may add later; absent keys are
`none`. -/
structure JobData where
  id : String
  jtype : String
  data : Payload
  priority : Nat
  created_at : String
  retry_count : Nat
  user_id : Option Int
  status : String
  updated_at : Option String := none
  result : Option (List (String × String)) := none
deriving DecidableEq, Repr

/-- A byte string held in a store: either the JSON serialization of a job
(json.dumps round-trips through json.loads), or bytes that fail to parse. -/
inductive Entry where
  | ser (j : JobData)
  | malformed (s : String)
deriving DecidableEq, Repr

/-- json.loads on a stored entry: a serialized job parses back, anything
else raises json.JSONDecodeError (`none`). -/
def parseEntry : Entry → Option JobData
  | .ser j => some j
  | .malformed _ => none

/-- The world acted on by the store clients, plus the availability and fault
disposition of each client call during the modelled execution.  `queues` maps
a Redis list name to its elements (lpush prepends, rpop takes the last
element); `queueTtl` is the expiration set on a list; `statusStore` maps a
Redis string key to its value and remaining TTL in seconds; `kafkaLog` is the
sequence of (topic, partition key, value) messages sent to the producer. -/
structure Store where
  redisAvail : Bool
  kafkaAvail : Bool
  lpushFail : Bool
  expireFail : Bool
  sendFail : Bool
  setexFail : Bool
  rpopFail : Bool
  getFail : Bool
  queues : String → List Entry
  queueTtl : String → Option Nat
  statusStore : String → Option (Entry × Nat)
  kafkaLog : List (String × String × Entry)

/-- redis_client.lpush(q, e): prepend e to list q, or raise. -/
def lpushOp (st : Store) (q : String) (e : Entry) : Except String Unit × Store :=
  if st.lpushFail then (.error "redis lpush failed", st)
  else (.ok (), { st with queues := fun k => if k = q then e :: st.queues k else st.queues k })

/-- redis_client.expire(q, s): set the TTL of list q, or raise. -/
def expireOp (st : Store) (q : String) (s : Nat) : Except String Unit × Store :=
  if st.expireFail then (.error "redis expire failed", st)
  else (.ok (), { st with queueTtl := fun k => if k = q then some s else st.queueTtl k })

/-- redis_client.rpop(q): remove and return the last element of list q
(None when empty), or raise. -/
def rpopOp (st : Store) (q : String) : Except String (Option Entry) × Store :=
  if st.rpopFail then (.error "redis rpop failed", st)
  else
    match (st.queues q).getLast? with
    | none => (.ok none, st)
    | some e =>
      (.ok (some e),
       { st with queues := fun k => if k = q then (st.queues k).dropLast else st.queues k })

/-- redis_client.setex(k, ttl, v): store v under k with the given TTL,
or raise. -/
def setexOp (st : Store) (k : String) (ttl : Nat) (v : Entry) : Except String Unit × Store :=
  if st.setexFail then (.error "redis setex failed", st)
  else (.ok (), { st with statusStore := fun q => if q = k then some (v, ttl) else st.statusStore q })

/-- redis_client.get(k): return the value under k (None when absent or
expired), or raise. -/
def getOp (st : Store) (k : String) : Except String (Option Entry) × Store :=
  if st.getFail then (.error "redis get failed", st)
  else
    match st.statusStore k with
    | some (e, _) => (.ok (some e), st)
    | none => (.ok none, st)

/-- kafka_producer.send(topic, value, key): append a message, or raise. -/
def sendOp (st : Store) (topic : String) (key : String) (v : Entry) : Except String Unit × Store :=
  if st.sendFail then (.error "kafka send failed", st)
  else (.ok (), { st with kafkaLog := st.kafkaLog ++ [(topic, key, v)] })

/-- The job_data dictionary constructed at the top of QueueManager.enqueue.
The generated id (built from the clock and a payload hash) and the
created_at timestamp are environmental inputs, passed in as `jobId` and
`now`. -/
def mkJobData (queue_type : QueueType) (data : Payload) (priority : Priority)
    (retryCount : Nat) (userId : Option Int) (jobId : String) (now : String) : JobData :=
  { id := jobId
    jtype := queue_type.value
    data := data
    priority := priority.val
    created_at := now
    retry_count := retryCount
    user_id := userId
    status := "pending" }

/-- The partition key of QueueManager._enqueue_kafka: str applied to the
user_id entry of job_data, looked up by .get with a default of 0.  The
user_id key is always present in job_data (enqueue stores it even when the
argument is None), so the .get default of 0 never fires, and Python str
renders None as "None". -/
def partitionKey (userId : Option Int) : String :=
  match userId with
  | some n => toString n
  | none => "None"

/-- QueueManager._enqueue_redis: no-op when the Redis client is absent;
otherwise lpush the serialized job onto the per-priority list and set the
list expiration to 86400 seconds. -/
def enqueueRedis (st : Store) (queue_type : QueueType) (jd : JobData) (priority : Priority) :
    Except String Unit × Store :=
  if !st.redisAvail then (.ok (), st)
  else
    let queueName := redisQueues queue_type ++
      (if priority = .CRITICAL then ":critical"
       else if priority = .HIGH then ":high"
       else ":normal")
    match lpushOp st queueName (.ser jd) with
    | (.error e, st1) => (.error e, st1)
    | (.ok _, st1) => expireOp st1 queueName 86400

/-- QueueManager._enqueue_kafka: no-op when the Kafka producer is absent;
otherwise send the serialized job on the topic for the queue type, keyed by
the partition key derived from user_id. -/
def enqueueKafka (st : Store) (queue_type : QueueType) (jd : JobData) :
    Except String Unit × Store :=
  if !st.kafkaAvail then (.ok (), st)
  else sendOp st (kafkaTopics queue_type) (partitionKey jd.user_id) (.ser jd)

/-- The Redis key of the status record of a job. -/
def jobKey (jobId : String) : String := "job:" ++ jobId

/-- QueueManager._track_job: no-op when the Redis client is absent; otherwise
setex the serialized job under "job:<id>" with a 3600 second TTL. -/
def trackJob (st : Store) (jobId : String) (jd : JobData) : Except String Unit × Store :=
  if !st.redisAvail then (.ok (), st)
  else setexOp st (jobKey jobId) 3600 (.ser jd)

/-- QueueManager.enqueue.  Fast-queue write only for HIGH or CRITICAL
priority; then the durable-log send; then the status-record write.  All
three run inside one try block whose except clause logs and re-raises, so
the first exception aborts the remaining writes and propagates, with the
already-performed side effects retained.  The delaySeconds argument is
accepted and ignored, as in the source. -/
def enqueue (st : Store) (queue_type : QueueType) (data : Payload)
    (priority : Priority) (delaySeconds : Nat) (retryCount : Nat)
    (userId : Option Int) (jobId : String) (now : String) :
    Except String String × Store :=
  let _ := delaySeconds
  let jd := mkJobData queue_type data priority retryCount userId jobId now
  let r1 :=
    if priority = .HIGH ∨ priority = .CRITICAL then enqueueRedis st queue_type jd priority
    else (.ok (), st)
  match r1 with
  | (.error e, st1) => (.error e, st1)
  | (.ok _, st1) =>
    match enqueueKafka st1 queue_type jd with
    | (.error e, st2) => (.error e, st2)
    | (.ok _, st2) =>
      match trackJob st2 jobId jd with
      | (.error e, st3) => (.error e, st3)
      | (.ok _, st3) => (.ok jobId, st3)

/-- The body of the inner `for _ in range(batch_size)` loop of
QueueManager.dequeue, on one priority list: rpop; if an element came back,
json.loads it and append on success, log and drop on JSONDecodeError; stop
as soon as `len(jobs) >= batch_size`; otherwise continue until the range is
exhausted.  `fuel` is the number of remaining range iterations, initially
batch_size. -/
def popLoop (st : Store) (q : String) (batchSize : Nat) (jobs : List JobData) :
    Nat → Except String (List JobData) × Store
  | 0 => (.ok jobs, st)
  | fuel + 1 =>
    match rpopOp st q with
    | (.error e, st1) => (.error e, st1)
    | (.ok popped, st1) =>
      let jobs1 :=
        match popped with
        | some e =>
          match parseEntry e with
          | some j => jobs ++ [j]
          | none => jobs
        | none => jobs
      if jobs1.length ≥ batchSize then (.ok jobs1, st1)
      else popLoop st1 q batchSize jobs1 fuel

/-- The outer loop of QueueManager.dequeue over the priority suffixes
":critical", ":high", ":normal": run the inner pop loop on each list and
stop as soon as `len(jobs) >= batch_size`. -/
def dequeueTiers (st : Store) (queueName : String) (batchSize : Nat) :
    List String → List JobData → Except String (List JobData) × Store
  | [], jobs => (.ok jobs, st)
  | sfx :: rest, jobs =>
    match popLoop st (queueName ++ sfx) batchSize jobs batchSize with
    | (.error e, st1) => (.error e, st1)
    | (.ok jobs1, st1) =>
      if jobs1.length ≥ batchSize then (.ok jobs1, st1)
      else dequeueTiers st1 queueName batchSize rest jobs1

/-- QueueManager.dequeue: empty list when the Redis client is absent;
otherwise drain the ":critical", ":high", ":normal" lists of the queue type
in that order, collecting at most batchSize parsed jobs. -/
def dequeue (st : Store) (queue_type : QueueType) (batchSize : Nat) :
    Except String (List JobData) × Store :=
  if !st.redisAvail then (.ok [], st)
  else dequeueTiers st (redisQueues queue_type) batchSize [":critical", ":high", ":normal"] []

/-- QueueManager.get_job_status: None when the Redis client is absent;
otherwise get "job:<id>" and json.loads it, returning None when the key is
absent and also when the stored value fails to parse (the JSONDecodeError is
logged and swallowed). -/
def getJobStatus (st : Store) (jobId : String) : Except String (Option JobData) × Store :=
  if !st.redisAvail then (.ok none, st)
  else
    match getOp st (jobKey jobId) with
    | (.error e, st1) => (.error e, st1)
    | (.ok none, st1) => (.ok none, st1)
    | (.ok (some e), st1) =>
      match parseEntry e with
      | some j => (.ok (some j), st1)
      | none => (.ok none, st1)

/-- Python truthiness of the optional result dict: None and the empty dict
are falsy. -/
def resultTruthy (result : Option (List (String × String))) : Bool :=
  match result with
  | some r => !r.isEmpty
  | none => false

/-- QueueManager.update_job_status: no-op when the Redis client is absent or
the status record is gone; otherwise read the record, overwrite its status,
set updated_at, set result only when the argument is truthy, and setex the
record back with a fresh 3600 second TTL. -/
def updateJobStatus (st : Store) (jobId : String) (status : String)
    (result : Option (List (String × String))) (now : String) :
    Except String Unit × Store :=
  if !st.redisAvail then (.ok (), st)
  else
    match getJobStatus st jobId with
    | (.error e, st1) => (.error e, st1)
    | (.ok none, st1) => (.ok (), st1)
    | (.ok (some j), st1) =>
      let j1 : JobData :=
        { j with
          status := status
          updated_at := some now
          result := if resultTruthy result then result else j.result }
      setexOp st1 (jobKey jobId) 3600 (.ser j1)

/-!
Workers (src/app/workers.py).  Each worker category shares one skeleton: a
per-job try block running category-specific business logic against external
collaborators (database, cache, analytics sink), then mark_job_completed;
the except clause runs mark_job_failed with the error text.  The business
logic is abstracted as a `handler` parameter returning `Except String Unit`.
BaseWorker.start processes a dequeued batch with
asyncio.gather(..., return_exceptions=True), which runs every per-job task
to completion and never cancels siblings; the tasks touch only the status
key of their own job, so their combined effect on the status store (for
distinct job ids) is modelled by sequential composition.  The float poll
delay field only paces the loop and is not modelled.
-/

/-- The mutable counters and flags of one BaseWorker instance. -/
structure Worker where
  queue_type : QueueType
  batch_size : Nat
  processed_count : Nat
  error_count : Nat
  running : Bool
deriving DecidableEq, Repr

/-- BaseWorker.mark_job_failed: update the status record to "failed" with
{"error": <text>} as result, then increment error_count.  When the status
write itself raises, the exception escapes process_job and is swallowed by
gather(return_exceptions=True), so the counter is not incremented. -/
def markJobFailed (st : Store) (w : Worker) (jobId : String) (err : String) (now : String) :
    Worker × Store :=
  match updateJobStatus st jobId "failed" (some [("error", err)]) now with
  | (.ok _, st1) => ({ w with error_count := w.error_count + 1 }, st1)
  | (.error _, st1) => (w, st1)

/-- The shared process_job skeleton: run the category handler; on success
mark_job_completed (update status to "completed" with no result, increment
processed_count); on an exception anywhere inside the try block — including
one raised by the completed-status write itself — the except clause runs
mark_job_failed. -/
def processJob (st : Store) (handler : JobData → Except String Unit) (w : Worker)
    (job : JobData) (now : String) : Worker × Store :=
  match handler job with
  | .ok _ =>
    match updateJobStatus st job.id "completed" none now with
    | (.ok _, st1) => ({ w with processed_count := w.processed_count + 1 }, st1)
    | (.error e, st1) => markJobFailed st1 w job.id e now
  | .error e => markJobFailed st w job.id e now

/-- The batch step of BaseWorker.start: process every job of the dequeued
batch; gather with return_exceptions=True never aborts the batch, and jobs
with distinct ids act on distinct status keys, so the fan-out is modelled
job by job. -/
def processBatch (st : Store) (handler : JobData → Except String Unit) (w : Worker)
    (now : String) : List JobData → Worker × Store
  | [] => (w, st)
  | j :: rest =>
    let ws1 := processJob st handler w j now
    processBatch ws1.2 handler ws1.1 now rest

/-- A freshly constructed BaseWorker: counters zero, not running. -/
def mkWorker (queue_type : QueueType) (batchSize : Nat) : Worker :=
  { queue_type := queue_type
    batch_size := batchSize
    processed_count := 0
    error_count := 0
    running := false }

/-- WorkerManager.__init__: the five supervised workers, with the
batch sizes fixed by each subclass constructor. -/
def managerWorkers : List Worker :=
  [ mkWorker .FRIEND_REQUESTS 20
  , mkWorker .MESSAGES 50
  , mkWorker .NOTIFICATIONS 100
  , mkWorker .USER_ACTIVITY 200
  , mkWorker .ANALYTICS 500 ]

/-- One entry of the WorkerManager.get_stats snapshot. -/
structure WorkerStats where
  processed : Nat
  errors : Nat
  running : Bool
deriving DecidableEq, Repr

/-- WorkerManager.get_stats: a mapping from each worker queue-type value to
that worker processed/errors/running triple; the workers serve pairwise
distinct queue types, so this association list is the Python dict. -/
def getStats (workers : List Worker) : List (String × WorkerStats) :=
  workers.map fun w =>
    (w.queue_type.value,
     { processed := w.processed_count, errors := w.error_count, running := w.running })

/-- A world with both clients connected, no faults, and all stores empty:
the healthy baseline for concrete scenarios. -/
def okStore : Store :=
  { redisAvail := true
    kafkaAvail := true
    lpushFail := false
    expireFail := false
    sendFail := false
    setexFail := false
    rpopFail := false
    getFail := false
    queues := fun _ => []
    queueTtl := fun _ => none
    statusStore := fun _ => none
    kafkaLog := [] }

/-!
Concrete scenario material shared by the theorems below.
-/

/-- Enqueue one CRITICAL notifications job (id "jc"). -/
def enqCrit (st : Store) : Store :=
  (enqueue st .NOTIFICATIONS [("k", "c")] .CRITICAL 0 3 (some 1) "jc" "tc").2

/-- Enqueue one HIGH notifications job (id "jh"). -/
def enqHigh (st : Store) : Store :=
  (enqueue st .NOTIFICATIONS [("k", "h")] .HIGH 0 3 (some 1) "jh" "th").2

/-- Enqueue one NORMAL notifications job (id "jn"). -/
def enqNorm (st : Store) : Store :=
  (enqueue st .NOTIFICATIONS [("k", "n")] .NORMAL 0 3 (some 1) "jn" "tn").2

/-- The job record of the CRITICAL job of the scenario. -/
def jdCrit : JobData := mkJobData .NOTIFICATIONS [("k", "c")] .CRITICAL 3 (some 1) "jc" "tc"

/-- The job record of the HIGH job of the scenario. -/
def jdHigh : JobData := mkJobData .NOTIFICATIONS [("k", "h")] .HIGH 3 (some 1) "jh" "th"

/-- The job record of the NORMAL job of the scenario. -/
def jdNorm : JobData := mkJobData .NOTIFICATIONS [("k", "n")] .NORMAL 3 (some 1) "jn" "tn"

/-- A valid job sitting in the critical fast-queue list below a malformed
entry (the malformed entry is at the rpop end). -/
def jdVal : JobData := mkJobData .NOTIFICATIONS [("k", "v")] .CRITICAL 3 none "jv" "tv"

/-- A healthy world whose critical notifications list holds one valid job
and, on top of it (popped first), one malformed entry. -/
def stMal : Store :=
  { okStore with
    queues := fun k =>
      if k = "queue:notifications:critical" then [Entry.ser jdVal, Entry.malformed "xx"]
      else [] }

/-- The world after enqueueing three CRITICAL notifications jobs. -/
def st3Crit : Store :=
  (enqueue (enqueue (enqueue okStore
      .NOTIFICATIONS [("k", "1")] .CRITICAL 0 3 (some 1) "j1" "t1").2
      .NOTIFICATIONS [("k", "2")] .CRITICAL 0 3 (some 1) "j2" "t2").2
      .NOTIFICATIONS [("k", "3")] .CRITICAL 0 3 (some 1) "j3" "t3").2

/-- First of the three CRITICAL jobs. -/
def jd1 : JobData := mkJobData .NOTIFICATIONS [("k", "1")] .CRITICAL 3 (some 1) "j1" "t1"

/-- Second of the three CRITICAL jobs. -/
def jd2 : JobData := mkJobData .NOTIFICATIONS [("k", "2")] .CRITICAL 3 (some 1) "j2" "t2"

/-- Third of the three CRITICAL jobs. -/
def jd3 : JobData := mkJobData .NOTIFICATIONS [("k", "3")] .CRITICAL 3 (some 1) "j3" "t3"

/-- A healthy world holding the status record of job "jv" with 5 seconds of
TTL left. -/
def stTrack : Store :=
  { okStore with
    statusStore := fun q => if q = jobKey "jv" then some (Entry.ser jdVal, 5) else none }

/-- The status record a worker leaves behind for a job, as a function of the
outcome of its business-logic handler: completed with no result dict on
success, failed with {"error": <text>} on an exception. -/
def expectedEntry (handler : JobData → Except String Unit) (now : String)
    (j : JobData) : Entry :=
  match handler j with
  | .ok _ =>
    .ser { j with status := "completed", updated_at := some now }
  | .error e =>
    .ser { j with status := "failed", updated_at := some now, result := some [("error", e)] }

/-- First job of the worker-batch scenario (handler succeeds). -/
def jdA : JobData := mkJobData .FRIEND_REQUESTS [("x", "1")] .HIGH 3 (some 1) "ja" "ta"

/-- Second job of the worker-batch scenario (handler raises). -/
def jdB : JobData := mkJobData .FRIEND_REQUESTS [("x", "2")] .HIGH 3 (some 2) "jb" "tb"

/-- A healthy world holding the status records of both batch jobs. -/
def stBatch : Store :=
  { okStore with
    statusStore := fun q =>
      if q = jobKey "ja" then some (Entry.ser jdA, 3600)
      else if q = jobKey "jb" then some (Entry.ser jdB, 3600)
      else none }

/-- A handler that raises on job "jb" and succeeds on every other job. -/
def handlerBoom : JobData → Except String Unit :=
  fun j => if j.id = "jb" then .error "boom" else .ok ()

/-!
C1.  The claim says the durable-log append happens even when the fast-queue
write throws.  In the source, the Redis write, the Kafka send and the status
write run inside one try block whose except clause re-raises, so a throwing
fast-queue write aborts enqueue before the Kafka send.
-/

/-- C1 counterexample: with a connected Redis whose lpush throws, enqueue of
a HIGH job propagates the error and the durable log receives nothing, against
the claim that the append happens even when the fast-queue write throws. -/
theorem c1_counterexample :
    (enqueue { okStore with lpushFail := true } .NOTIFICATIONS [("k", "v")]
        .HIGH 0 3 (some 1) "j1" "t1").1 = .error "redis lpush failed"
    ∧ (enqueue { okStore with lpushFail := true } .NOTIFICATIONS [("k", "v")]
        .HIGH 0 3 (some 1) "j1" "t1").2.kafkaLog = [] :=
  ⟨rfl, rfl⟩

/-- C1 amended: every enqueue whose fast-path write does not throw appends
the serialized job to the durable log (for any priority, also when the fast
store is absent, and even when the later status write throws); when the
fast-queue write does throw, enqueue raises and the durable-log append does
not happen. -/
theorem c1_theorem :
    (∀ (st : Store) (qt : QueueType) (data : Payload) (prio : Priority)
        (delay retry : Nat) (uid : Option Int) (jid now : String),
      st.lpushFail = false → st.expireFail = false →
      st.kafkaAvail = true → st.sendFail = false →
      (enqueue st qt data prio delay retry uid jid now).2.kafkaLog =
        st.kafkaLog ++ [(kafkaTopics qt, partitionKey uid,
          Entry.ser (mkJobData qt data prio retry uid jid now))])
    ∧ (∀ (st : Store) (qt : QueueType) (data : Payload) (prio : Priority)
        (delay retry : Nat) (uid : Option Int) (jid now : String),
      st.redisAvail = true → st.lpushFail = true →
      (prio = Priority.HIGH ∨ prio = Priority.CRITICAL) →
      (enqueue st qt data prio delay retry uid jid now).1 = .error "redis lpush failed"
      ∧ (enqueue st qt data prio delay retry uid jid now).2.kafkaLog = st.kafkaLog) := by
  constructor
  · intro st qt data prio delay retry uid jid now h1 h2 h3 h4
    by_cases hp : prio = Priority.HIGH ∨ prio = Priority.CRITICAL <;>
      cases hr : st.redisAvail <;> cases hs : st.setexFail <;>
      simp [enqueue, enqueueRedis, enqueueKafka, trackJob, lpushOp, expireOp,
        sendOp, setexOp, mkJobData, h1, h2, h3, h4, hp, hr, hs]
  · intro st qt data prio delay retry uid jid now hr hl hp
    rcases hp with hp | hp <;>
      simp [enqueue, enqueueRedis, lpushOp, hp, hr, hl]

/-- C1 witness: the amended theorem applied to the healthy empty world for a
NORMAL job, and to a world with a throwing lpush for a HIGH job. -/
theorem c1_witness :
    (enqueue okStore .NOTIFICATIONS [("k", "v")] .NORMAL 0 3 none "jw" "tw").2.kafkaLog =
      okStore.kafkaLog ++ [(kafkaTopics .NOTIFICATIONS, partitionKey none,
        Entry.ser (mkJobData .NOTIFICATIONS [("k", "v")] .NORMAL 3 none "jw" "tw"))]
    ∧ (enqueue { okStore with lpushFail := true } .NOTIFICATIONS [("k", "v")]
        .HIGH 0 3 none "jw" "tw").1 = .error "redis lpush failed"
    ∧ (enqueue { okStore with lpushFail := true } .NOTIFICATIONS [("k", "v")]
        .HIGH 0 3 none "jw" "tw").2.kafkaLog = Store.kafkaLog { okStore with lpushFail := true } := by
  refine ⟨c1_theorem.1 okStore .NOTIFICATIONS [("k", "v")] .NORMAL 0 3 none "jw" "tw"
      rfl rfl rfl rfl, ?_, ?_⟩
  · exact (c1_theorem.2 { okStore with lpushFail := true } .NOTIFICATIONS [("k", "v")]
      .HIGH 0 3 none "jw" "tw" rfl rfl (Or.inl rfl)).1
  · exact (c1_theorem.2 { okStore with lpushFail := true } .NOTIFICATIONS [("k", "v")]
      .HIGH 0 3 none "jw" "tw" rfl rfl (Or.inl rfl)).2

/-!
C2.  The claim says a batch-3 dequeue after enqueueing one CRITICAL, one
HIGH and one NORMAL job returns all three in the order CRITICAL, HIGH,
NORMAL.  In the source only HIGH and CRITICAL jobs are written to the fast
queue, so the NORMAL job is never visible to dequeue.
-/

/-- C2 counterexample: enqueue NORMAL, HIGH, CRITICAL (one order of the
three); a batch-3 dequeue returns only the CRITICAL and HIGH jobs, not the
claimed three-element batch. -/
theorem c2_counterexample :
    (dequeue (enqCrit (enqHigh (enqNorm okStore))) .NOTIFICATIONS 3).1 = .ok [jdCrit, jdHigh]
    ∧ [jdCrit, jdHigh] ≠ [jdCrit, jdHigh, jdNorm] :=
  ⟨rfl, by decide⟩

/-- C2 amended: for every enqueue order of the three jobs, a batch-3 dequeue
returns exactly the CRITICAL job followed by the HIGH job; the NORMAL job is
never written to the fast queue (its priority list stays empty). -/
theorem c2_theorem :
    (dequeue (enqNorm (enqHigh (enqCrit okStore))) .NOTIFICATIONS 3).1 = .ok [jdCrit, jdHigh]
    ∧ (dequeue (enqHigh (enqNorm (enqCrit okStore))) .NOTIFICATIONS 3).1 = .ok [jdCrit, jdHigh]
    ∧ (dequeue (enqNorm (enqCrit (enqHigh okStore))) .NOTIFICATIONS 3).1 = .ok [jdCrit, jdHigh]
    ∧ (dequeue (enqCrit (enqNorm (enqHigh okStore))) .NOTIFICATIONS 3).1 = .ok [jdCrit, jdHigh]
    ∧ (dequeue (enqHigh (enqCrit (enqNorm okStore))) .NOTIFICATIONS 3).1 = .ok [jdCrit, jdHigh]
    ∧ (dequeue (enqCrit (enqHigh (enqNorm okStore))) .NOTIFICATIONS 3).1 = .ok [jdCrit, jdHigh]
    ∧ (enqNorm (enqHigh (enqCrit okStore))).queues "queue:notifications:normal" = [] :=
  ⟨rfl, rfl, rfl, rfl, rfl, rfl, rfl⟩

/-!
C4.  The claim says the durable-log partition key defaults to 0 when
ownerUserId is None.  The source computes str of the .get lookup of the
user_id key with default 0, but the key is always present in job_data, so a
None user id yields the key "None".  The dead default and the spec agree on
the intent (0), making this a code bug rather than a spec error.
-/

/-- C4: at the failing input (user_id = None) enqueue succeeds and the
durable-log message is keyed "None", not the claimed "0". -/
theorem c4_theorem :
    (enqueue okStore .NOTIFICATIONS [("a", "b")] .NORMAL 0 3 none "j4" "t4").1 = .ok "j4"
    ∧ (enqueue okStore .NOTIFICATIONS [("a", "b")] .NORMAL 0 3 none "j4" "t4").2.kafkaLog =
        [("notifications-queue", "None",
          Entry.ser (mkJobData .NOTIFICATIONS [("a", "b")] .NORMAL 3 none "j4" "t4"))]
    ∧ partitionKey none = "None"
    ∧ "None" ≠ "0" :=
  ⟨rfl, rfl, rfl, by decide⟩

/-!
C5.  The claim says the Worker Manager supervises one worker per each of the
eight queue types.  WorkerManager.__init__ constructs five workers; the
media_processing, email_notifications and push_notifications queue types have
no worker.
-/

/-- C5 counterexample: the manager supervises five workers, and three of the
eight queue types are served by none of them. -/
theorem c5_counterexample :
    managerWorkers.length = 5
    ∧ managerWorkers.map Worker.queue_type =
        [QueueType.FRIEND_REQUESTS, QueueType.MESSAGES, QueueType.NOTIFICATIONS,
         QueueType.USER_ACTIVITY, QueueType.ANALYTICS]
    ∧ QueueType.MEDIA_PROCESSING ∉ managerWorkers.map Worker.queue_type
    ∧ QueueType.EMAIL_NOTIFICATIONS ∉ managerWorkers.map Worker.queue_type
    ∧ QueueType.PUSH_NOTIFICATIONS ∉ managerWorkers.map Worker.queue_type := by
  decide

/-- C5 amended: the manager supervises five workers, one each for
friend_requests, messages, notifications, user_activity and analytics, and
for any counter values of those workers the stats snapshot keys are exactly
the served queue-type values, each worker contributing its
processed/errors/running triple. -/
theorem c5_theorem :
    ∀ ws : List Worker,
      ws.map Worker.queue_type = managerWorkers.map Worker.queue_type →
      (getStats ws).map Prod.fst =
        ["friend_requests", "messages", "notifications", "user_activity", "analytics"]
      ∧ ∀ w ∈ ws,
          (w.queue_type.value,
            ({ processed := w.processed_count, errors := w.error_count,
               running := w.running } : WorkerStats)) ∈ getStats ws := by
  intro ws h
  constructor
  · have h1 : (getStats ws).map Prod.fst = (ws.map Worker.queue_type).map QueueType.value := by
      simp [getStats, List.map_map, Function.comp]
    rw [h1, h]
    rfl
  · intro w hw
    simp only [getStats]
    exact List.mem_map_of_mem _ hw

/-- C5 witness: the amended theorem applied to the freshly constructed
manager workers. -/
theorem c5_witness :
    (getStats managerWorkers).map Prod.fst =
      ["friend_requests", "messages", "notifications", "user_activity", "analytics"] :=
  (c5_theorem managerWorkers rfl).1

/-!
C6.  The claim says a malformed fast-queue entry is not counted against
batchSize.  The inner dequeue loop runs exactly batchSize rpop iterations
per priority tier, and a malformed entry consumes one of them, so a batch
can come back short even though enough valid jobs are present.
-/

/-- C6 counterexample: the critical tier holds one valid job under one
malformed entry; a batch-1 dequeue pops only the malformed entry and returns
no job, although one valid job was present in the drained tier. -/
theorem c6_counterexample :
    stMal.queues "queue:notifications:critical" = [Entry.ser jdVal, Entry.malformed "xx"]
    ∧ parseEntry (Entry.ser jdVal) = some jdVal
    ∧ (dequeue stMal .NOTIFICATIONS 1).1 = .ok [] :=
  ⟨rfl, rfl, rfl⟩

/-- C6 amended: the malformed entry is dropped — removed from the queue and
never returned, not counted in the returned batch — but it consumes one of
the batchSize pop iterations of its tier, so the dequeue returns short; the
valid job stays queued and the next dequeue returns it. -/
theorem c6_theorem :
    (dequeue stMal .NOTIFICATIONS 1).1 = .ok []
    ∧ (dequeue stMal .NOTIFICATIONS 1).2.queues "queue:notifications:critical" =
        [Entry.ser jdVal]
    ∧ (dequeue (dequeue stMal .NOTIFICATIONS 1).2 .NOTIFICATIONS 1).1 = .ok [jdVal] :=
  ⟨rfl, rfl, rfl⟩

/-!
C3.  The claim says that when the configured fast-queue store throws,
dequeue and the status operations swallow the error and return an
empty/absent result.  In the source the only swallowed conditions are an
absent client and a JSONDecodeError; an exception from rpop, get or setex
propagates to the caller.
-/

/-- C3 counterexample: with a connected Redis whose operations throw,
dequeue, get_job_status and update_job_status all propagate the error
instead of returning an empty/absent result. -/
theorem c3_counterexample :
    ({ okStore with rpopFail := true } : Store).redisAvail = true
    ∧ (dequeue { okStore with rpopFail := true } .NOTIFICATIONS 1).1 =
        .error "redis rpop failed"
    ∧ ({ okStore with getFail := true } : Store).redisAvail = true
    ∧ (getJobStatus { okStore with getFail := true } "j1").1 = .error "redis get failed"
    ∧ (updateJobStatus { okStore with getFail := true } "j1" "completed" none "t1").1 =
        .error "redis get failed" :=
  ⟨rfl, rfl, rfl, rfl, rfl⟩

/-- C3 amended: an absent store is swallowed — dequeue returns an empty
list, getJobStatus returns None and updateJobStatus is a no-op — but an
exception thrown by an operation of a configured store propagates to the
caller from dequeue (for a positive batch size), getJobStatus and
updateJobStatus. -/
theorem c3_theorem :
    (∀ (st : Store) (qt : QueueType) (n : Nat) (jid s2 now : String)
        (result : Option (List (String × String))),
      st.redisAvail = false →
      (dequeue st qt n).1 = .ok []
      ∧ (getJobStatus st jid).1 = .ok none
      ∧ (updateJobStatus st jid s2 result now).1 = .ok ())
    ∧ (∀ (st : Store) (qt : QueueType) (n : Nat),
      st.redisAvail = true → st.rpopFail = true → 1 ≤ n →
      (dequeue st qt n).1 = .error "redis rpop failed")
    ∧ (∀ (st : Store) (jid : String),
      st.redisAvail = true → st.getFail = true →
      (getJobStatus st jid).1 = .error "redis get failed")
    ∧ (∀ (st : Store) (jid s2 now : String) (result : Option (List (String × String))),
      st.redisAvail = true → st.getFail = true →
      (updateJobStatus st jid s2 result now).1 = .error "redis get failed") := by
  refine ⟨?_, ?_, ?_, ?_⟩
  · intro st qt n jid s2 now result h
    exact ⟨by simp [dequeue, h], by simp [getJobStatus, h], by simp [updateJobStatus, h]⟩
  · intro st qt n h1 h2 hn
    cases n with
    | zero => omega
    | succ m => simp [dequeue, dequeueTiers, popLoop, rpopOp, h1, h2]
  · intro st jid h1 h2
    simp [getJobStatus, getOp, h1, h2]
  · intro st jid s2 now result h1 h2
    simp [updateJobStatus, getJobStatus, getOp, h1, h2]

/-- C3 witness: the amended theorem applied to an absent-store world and to
throwing-store worlds. -/
theorem c3_witness :
    (dequeue { okStore with redisAvail := false } .NOTIFICATIONS 1).1 = .ok []
    ∧ (dequeue { okStore with rpopFail := true } .NOTIFICATIONS 1).1 =
        .error "redis rpop failed"
    ∧ (getJobStatus { okStore with getFail := true } "j1").1 = .error "redis get failed"
    ∧ (updateJobStatus { okStore with getFail := true } "j1" "done" none "t").1 =
        .error "redis get failed" :=
  ⟨(c3_theorem.1 { okStore with redisAvail := false } .NOTIFICATIONS 1 "j1" "s" "t" none rfl).1,
   c3_theorem.2.1 { okStore with rpopFail := true } .NOTIFICATIONS 1 rfl rfl (by decide),
   c3_theorem.2.2.1 { okStore with getFail := true } "j1" rfl rfl,
   c3_theorem.2.2.2 { okStore with getFail := true } "j1" "done" "t" none rfl rfl⟩

/-!
C8.  Dequeue never returns more than batchSize jobs; 3 CRITICAL jobs are
drained as a batch of 2 and then a batch of 1.
-/

/-- The inner pop loop, entered with fewer than batchSize collected jobs,
returns at most batchSize jobs: each iteration adds at most one job and the
loop stops as soon as the bound is reached. -/
lemma popLoop_length_le (bs : Nat) :
    ∀ (fuel : Nat) (st : Store) (q : String) (jobs : List JobData),
      jobs.length < bs →
      ∀ (res : List JobData) (st2 : Store),
        popLoop st q bs jobs fuel = (.ok res, st2) → res.length ≤ bs := by
  intro fuel
  induction fuel with
  | zero =>
    intro st q jobs hlt res st2 h
    simp only [popLoop, Prod.mk.injEq, Except.ok.injEq] at h
    obtain ⟨rfl, rfl⟩ := h
    omega
  | succ m ih =>
    intro st q jobs hlt res st2 h
    simp only [popLoop] at h
    rcases hr : rpopOp st q with ⟨r, st1⟩
    rw [hr] at h
    cases r with
    | error e => simp at h
    | ok popped =>
      rcases popped with _ | e
      · simp only at h
        by_cases hge : jobs.length ≥ bs
        · omega
        · rw [if_neg hge] at h
          exact ih st1 q jobs hlt res st2 h
      · rcases pe : parseEntry e with _ | j <;> simp only [pe] at h
        · by_cases hge : jobs.length ≥ bs
          · omega
          · rw [if_neg hge] at h
            exact ih st1 q jobs hlt res st2 h
        · by_cases hge : (jobs ++ [j]).length ≥ bs
          · rw [if_pos hge] at h
            cases h
            simp
            omega
          · rw [if_neg hge] at h
            refine ih st1 q (jobs ++ [j]) ?_ res st2 h
            simp at hge ⊢
            omega

/-- The tier loop, entered with fewer than batchSize collected jobs (or with
nothing collected and a zero batch), returns at most batchSize jobs. -/
lemma dequeueTiers_length_le (bs : Nat) :
    ∀ (tiers : List String) (st : Store) (qn : String) (jobs : List JobData),
      (jobs.length < bs ∨ (bs = 0 ∧ jobs = [])) →
      ∀ (res : List JobData) (st2 : Store),
        dequeueTiers st qn bs tiers jobs = (.ok res, st2) → res.length ≤ bs := by
  intro tiers
  induction tiers with
  | nil =>
    intro st qn jobs hcase res st2 h
    simp only [dequeueTiers, Prod.mk.injEq, Except.ok.injEq] at h
    obtain ⟨rfl, rfl⟩ := h
    rcases hcase with hlt | ⟨rfl, rfl⟩
    · omega
    · simp
  | cons s rest ih =>
    intro st qn jobs hcase res st2 h
    rcases hcase with hlt | ⟨rfl, rfl⟩
    · simp only [dequeueTiers] at h
      rcases hp : popLoop st (qn ++ s) bs jobs bs with ⟨r, st1⟩
      rw [hp] at h
      cases r with
      | error e => simp at h
      | ok jobs1 =>
        have h1 : jobs1.length ≤ bs :=
          popLoop_length_le bs bs st (qn ++ s) jobs hlt jobs1 st1 hp
        by_cases hge : jobs1.length ≥ bs
        · simp only [if_pos hge, Prod.mk.injEq, Except.ok.injEq] at h
          obtain ⟨rfl, rfl⟩ := h
          omega
        · simp only [if_neg hge] at h
          exact ih st1 qn jobs1 (Or.inl (by omega)) res st2 h
    · simp only [dequeueTiers, popLoop, List.length_nil, ge_iff_le, Nat.le_refl,
        if_true, Prod.mk.injEq, Except.ok.injEq] at h
      obtain ⟨h1, h2⟩ := h
      subst h1
      simp

/-- QueueManager.dequeue returns at most batchSize jobs. -/
lemma dequeue_length_le (st : Store) (qt : QueueType) (n : Nat) (res : List JobData)
    (st2 : Store) (h : dequeue st qt n = (.ok res, st2)) : res.length ≤ n := by
  by_cases hr : st.redisAvail
  · have hd : dequeueTiers st (redisQueues qt) n
        [":critical", ":high", ":normal"] [] = (.ok res, st2) := by
      simpa [dequeue, hr] using h
    refine dequeueTiers_length_le n [":critical", ":high", ":normal"] st
      (redisQueues qt) [] ?_ res st2 hd
    cases n with
    | zero => exact Or.inr ⟨rfl, rfl⟩
    | succ m => exact Or.inl (by simp)
  · rw [Bool.not_eq_true] at hr
    simp only [dequeue, hr, Bool.not_false, if_true, Prod.mk.injEq, Except.ok.injEq] at h
    obtain ⟨h1, h2⟩ := h
    subst h1
    simp

/-- C8: dequeue never returns more than batchSize jobs, and after enqueueing
3 CRITICAL jobs a batch-2 dequeue returns exactly the first 2 (in arrival
order) and a subsequent dequeue returns the remaining 1. -/
theorem c8_theorem :
    (∀ (st : Store) (qt : QueueType) (n : Nat) (res : List JobData) (st2 : Store),
      dequeue st qt n = (.ok res, st2) → res.length ≤ n)
    ∧ (dequeue st3Crit .NOTIFICATIONS 2).1 = .ok [jd1, jd2]
    ∧ (dequeue (dequeue st3Crit .NOTIFICATIONS 2).2 .NOTIFICATIONS 2).1 = .ok [jd3] :=
  ⟨dequeue_length_le, rfl, rfl⟩

/-- C8 witness: the batch bound applied to the concrete three-job world. -/
theorem c8_witness : ([jd1, jd2] : List JobData).length ≤ 2 :=
  c8_theorem.1 st3Crit .NOTIFICATIONS 2 [jd1, jd2] (dequeue st3Crit .NOTIFICATIONS 2).2 rfl

/-!
C9.  enqueue is not atomic: when the status-store write throws after the
fast-queue and durable-log writes succeeded, enqueue raises and the two
earlier writes stay in place.
-/

/-- C9: for a HIGH or CRITICAL job, with the fast-queue and durable-log
writes succeeding and the status write throwing, enqueue propagates the
error while the job is already in the fast-queue list and in the durable
log, and the status store is untouched (no rollback). -/
theorem c9_theorem :
    ∀ (st : Store) (qt : QueueType) (data : Payload) (prio : Priority)
      (delay retry : Nat) (uid : Option Int) (jid now : String),
      st.redisAvail = true → st.kafkaAvail = true →
      st.lpushFail = false → st.expireFail = false → st.sendFail = false →
      st.setexFail = true →
      (prio = Priority.HIGH ∨ prio = Priority.CRITICAL) →
      (enqueue st qt data prio delay retry uid jid now).1 = .error "redis setex failed"
      ∧ (enqueue st qt data prio delay retry uid jid now).2.queues
          (redisQueues qt ++ (if prio = Priority.CRITICAL then ":critical"
            else if prio = Priority.HIGH then ":high" else ":normal"))
        = Entry.ser (mkJobData qt data prio retry uid jid now)
            :: st.queues (redisQueues qt ++ (if prio = Priority.CRITICAL then ":critical"
                 else if prio = Priority.HIGH then ":high" else ":normal"))
      ∧ (enqueue st qt data prio delay retry uid jid now).2.kafkaLog
        = st.kafkaLog ++ [(kafkaTopics qt, partitionKey uid,
            Entry.ser (mkJobData qt data prio retry uid jid now))]
      ∧ (enqueue st qt data prio delay retry uid jid now).2.statusStore = st.statusStore := by
  intro st qt data prio delay retry uid jid now h1 h2 h3 h4 h5 h6 hp
  rcases hp with hp | hp <;> subst hp <;>
    simp [enqueue, enqueueRedis, enqueueKafka, trackJob, lpushOp, expireOp,
      sendOp, setexOp, mkJobData, h1, h2, h3, h4, h5, h6]

/-- C9 witness: the non-atomicity theorem applied to a healthy world whose
setex throws, for a concrete HIGH notifications job. -/
theorem c9_witness :
    (enqueue { okStore with setexFail := true } .NOTIFICATIONS [("k", "v")]
        .HIGH 0 3 (some 5) "j9" "t9").1 = .error "redis setex failed"
    ∧ (enqueue { okStore with setexFail := true } .NOTIFICATIONS [("k", "v")]
        .HIGH 0 3 (some 5) "j9" "t9").2.queues
        (redisQueues .NOTIFICATIONS ++ (if Priority.HIGH = Priority.CRITICAL then ":critical"
          else if Priority.HIGH = Priority.HIGH then ":high" else ":normal"))
      = Entry.ser (mkJobData .NOTIFICATIONS [("k", "v")] .HIGH 3 (some 5) "j9" "t9")
          :: ({ okStore with setexFail := true } : Store).queues
               (redisQueues .NOTIFICATIONS ++ (if Priority.HIGH = Priority.CRITICAL then ":critical"
                 else if Priority.HIGH = Priority.HIGH then ":high" else ":normal"))
    ∧ (enqueue { okStore with setexFail := true } .NOTIFICATIONS [("k", "v")]
        .HIGH 0 3 (some 5) "j9" "t9").2.kafkaLog
      = ({ okStore with setexFail := true } : Store).kafkaLog ++
          [(kafkaTopics .NOTIFICATIONS, partitionKey (some 5),
            Entry.ser (mkJobData .NOTIFICATIONS [("k", "v")] .HIGH 3 (some 5) "j9" "t9"))]
    ∧ (enqueue { okStore with setexFail := true } .NOTIFICATIONS [("k", "v")]
        .HIGH 0 3 (some 5) "j9" "t9").2.statusStore
      = ({ okStore with setexFail := true } : Store).statusStore :=
  c9_theorem { okStore with setexFail := true } .NOTIFICATIONS [("k", "v")] .HIGH 0 3
    (some 5) "j9" "t9" rfl rfl rfl rfl rfl rfl (Or.inl rfl)

/-!
C10.  update_job_status on an existing, parseable status record: the read
returns the stored job, the three written fields are status, updated_at and
(when truthy) result, everything else is carried over unchanged, and the
setex re-arms the TTL to a fresh 3600 seconds.
-/

/-- Exact effect of update_job_status on a healthy store holding a parseable
record under the job key: it returns ok and rewrites exactly that key with
the three-field update and a fresh 3600 second TTL. -/
lemma updateJobStatus_spec (st : Store) (jid s2 now : String)
    (r : Option (List (String × String))) (j : JobData) (t : Nat)
    (hA : st.redisAvail = true) (hG : st.getFail = false) (hS : st.setexFail = false)
    (hrec : st.statusStore (jobKey jid) = some (Entry.ser j, t)) :
    updateJobStatus st jid s2 r now =
      (.ok (),
        { st with
          statusStore := fun q =>
            if q = jobKey jid then
              some (Entry.ser
                { j with
                  status := s2
                  updated_at := some now
                  result := if resultTruthy r then r else j.result }, 3600)
            else st.statusStore q }) := by
  simp [updateJobStatus, getJobStatus, getOp, setexOp, parseEntry, hA, hG, hS, hrec]

/-- C10: for a job whose status record still exists, update_job_status
succeeds, rewrites the record with only status, updated_at and (when the
supplied result is truthy) result changed — the other fields are carried
over from the stored record — re-arms the TTL to a fresh 3600 seconds
whatever TTL remained, and touches no other status key, no queue and not
the durable log. -/
theorem c10_theorem :
    ∀ (st : Store) (jid s2 now : String) (r : Option (List (String × String)))
      (j : JobData) (t : Nat),
      st.redisAvail = true → st.getFail = false → st.setexFail = false →
      st.statusStore (jobKey jid) = some (Entry.ser j, t) →
      (updateJobStatus st jid s2 r now).1 = .ok ()
      ∧ (updateJobStatus st jid s2 r now).2.statusStore (jobKey jid)
          = some (Entry.ser
              { j with
                status := s2
                updated_at := some now
                result := if resultTruthy r then r else j.result }, 3600)
      ∧ (∀ k, k ≠ jobKey jid →
          (updateJobStatus st jid s2 r now).2.statusStore k = st.statusStore k)
      ∧ (updateJobStatus st jid s2 r now).2.queues = st.queues
      ∧ (updateJobStatus st jid s2 r now).2.kafkaLog = st.kafkaLog := by
  intro st jid s2 now r j t hA hG hS hrec
  rw [updateJobStatus_spec st jid s2 now r j t hA hG hS hrec]
  refine ⟨rfl, by simp, fun k hk => by simp [hk], rfl, rfl⟩

/-- C10 witness: the update theorem applied to a record with 5 seconds of
TTL remaining; the write succeeds, merges the fields and re-arms a fresh
3600 second TTL. -/
theorem c10_witness :
    (updateJobStatus stTrack "jv" "completed" none "t2").1 = .ok ()
    ∧ (updateJobStatus stTrack "jv" "completed" none "t2").2.statusStore (jobKey "jv")
        = some (Entry.ser
            { jdVal with
              status := "completed"
              updated_at := some "t2"
              result := if resultTruthy none then none else jdVal.result }, 3600)
    ∧ (updateJobStatus stTrack "jv" "completed" none "t2").2.statusStore "job:other"
        = stTrack.statusStore "job:other" := by
  have h := c10_theorem stTrack "jv" "completed" "t2" none jdVal 5 rfl rfl rfl rfl
  exact ⟨h.1, h.2.1, h.2.2.1 "job:other" (by decide)⟩

/-!
C7.  Batch processing isolation.  The helper lemmas establish that a worker
processing one job touches only the status record of that job and leaves
the client flags alone, so that the per-job effects compose over a batch of
jobs with distinct ids.
-/

/-- Distinct job ids give distinct status keys. -/
lemma jobKey_inj {a b : String} (h : jobKey a = jobKey b) : a = b := by
  have h2 : ("job:" ++ a).data = ("job:" ++ b).data := congrArg String.data h
  rw [String.data_append, String.data_append] at h2
  have h3 : a.data = b.data := List.append_cancel_left h2
  cases a
  cases b
  exact congrArg String.mk h3

/-- get_job_status never changes the world. -/
lemma getJobStatus_snd (st : Store) (jid : String) : (getJobStatus st jid).2 = st := by
  unfold getJobStatus getOp
  cases ha : st.redisAvail
  · simp [ha]
  · cases hg : st.getFail
    · rcases hs : st.statusStore (jobKey jid) with _ | ⟨e, t⟩
      · simp [ha, hg, hs]
      · rcases e with j | s <;> simp [ha, hg, hs, parseEntry]
    · simp [ha, hg]

/-- update_job_status either leaves the world unchanged or rewrites exactly
the status key of its job. -/
lemma updateJobStatus_snd_cases (st : Store) (jid s2 now : String)
    (r : Option (List (String × String))) :
    (updateJobStatus st jid s2 r now).2 = st
    ∨ ∃ v : Entry × Nat, (updateJobStatus st jid s2 r now).2 =
        { st with statusStore := fun q => if q = jobKey jid then some v else st.statusStore q } := by
  unfold updateJobStatus
  cases ha : st.redisAvail
  · left
    simp [ha]
  · rcases hgs : getJobStatus st jid with ⟨res, st1⟩
    have hst1 : st1 = st := by
      have h0 := getJobStatus_snd st jid
      rw [hgs] at h0
      exact h0
    cases res with
    | error e =>
      left
      simp [ha, hst1]
    | ok o =>
      cases o with
      | none =>
        left
        simp [ha, hst1]
      | some j =>
        cases hs : st.setexFail
        · right
          refine ⟨(Entry.ser
            { j with
              status := s2
              updated_at := some now
              result := if resultTruthy r then r else j.result }, 3600), ?_⟩
          simp [ha, setexOp, hst1, hs]
        · left
          simp [ha, setexOp, hst1, hs]

/-- update_job_status leaves every other status key alone. -/
lemma updateJobStatus_frame (st : Store) (jid s2 now : String)
    (r : Option (List (String × String))) (k : String) (hk : k ≠ jobKey jid) :
    (updateJobStatus st jid s2 r now).2.statusStore k = st.statusStore k := by
  rcases updateJobStatus_snd_cases st jid s2 now r with h | ⟨v, h⟩ <;> simp [h, hk]

/-- update_job_status leaves the client availability and fault flags alone. -/
lemma updateJobStatus_pres (st : Store) (jid s2 now : String)
    (r : Option (List (String × String))) :
    (updateJobStatus st jid s2 r now).2.redisAvail = st.redisAvail
    ∧ (updateJobStatus st jid s2 r now).2.getFail = st.getFail
    ∧ (updateJobStatus st jid s2 r now).2.setexFail = st.setexFail := by
  rcases updateJobStatus_snd_cases st jid s2 now r with h | ⟨v, h⟩ <;> simp [h]

/-- mark_job_failed leaves every other status key alone. -/
lemma markJobFailed_frame (st : Store) (w : Worker) (jid e now : String)
    (k : String) (hk : k ≠ jobKey jid) :
    (markJobFailed st w jid e now).2.statusStore k = st.statusStore k := by
  unfold markJobFailed
  rcases hu : updateJobStatus st jid "failed" (some [("error", e)]) now with ⟨res, st1⟩
  have hf := updateJobStatus_frame st jid "failed" now (some [("error", e)]) k hk
  rw [hu] at hf
  cases res <;> exact hf

/-- mark_job_failed leaves the client flags alone. -/
lemma markJobFailed_pres (st : Store) (w : Worker) (jid e now : String) :
    (markJobFailed st w jid e now).2.redisAvail = st.redisAvail
    ∧ (markJobFailed st w jid e now).2.getFail = st.getFail
    ∧ (markJobFailed st w jid e now).2.setexFail = st.setexFail := by
  unfold markJobFailed
  rcases hu : updateJobStatus st jid "failed" (some [("error", e)]) now with ⟨res, st1⟩
  have hf := updateJobStatus_pres st jid "failed" now (some [("error", e)])
  rw [hu] at hf
  cases res <;> exact hf

/-- process_job leaves every status key other than that of its own job
alone. -/
lemma processJob_frame (st : Store) (handler : JobData → Except String Unit)
    (w : Worker) (j : JobData) (now : String) (k : String) (hk : k ≠ jobKey j.id) :
    (processJob st handler w j now).2.statusStore k = st.statusStore k := by
  unfold processJob
  cases hh : handler j with
  | error e => exact markJobFailed_frame st w j.id e now k hk
  | ok u =>
    rcases hu : updateJobStatus st j.id "completed" none now with ⟨res, st1⟩
    have hf1 := updateJobStatus_frame st j.id "completed" now none k hk
    rw [hu] at hf1
    cases res with
    | ok u2 => exact hf1
    | error e => exact (markJobFailed_frame st1 w j.id e now k hk).trans hf1

/-- process_job leaves the client flags alone. -/
lemma processJob_pres (st : Store) (handler : JobData → Except String Unit)
    (w : Worker) (j : JobData) (now : String) :
    (processJob st handler w j now).2.redisAvail = st.redisAvail
    ∧ (processJob st handler w j now).2.getFail = st.getFail
    ∧ (processJob st handler w j now).2.setexFail = st.setexFail := by
  unfold processJob
  cases hh : handler j with
  | error e => exact markJobFailed_pres st w j.id e now
  | ok u =>
    rcases hu : updateJobStatus st j.id "completed" none now with ⟨res, st1⟩
    have hf1 := updateJobStatus_pres st j.id "completed" now none
    rw [hu] at hf1
    cases res with
    | ok u2 => exact hf1
    | error e =>
      have hf2 := markJobFailed_pres st1 w j.id e now
      exact ⟨hf2.1.trans hf1.1, hf2.2.1.trans hf1.2.1, hf2.2.2.trans hf1.2.2⟩

/-- On a healthy store holding the status record of its job, process_job
leaves exactly the expected per-outcome record under the job key. -/
lemma processJob_expected (st : Store) (handler : JobData → Except String Unit)
    (w : Worker) (j : JobData) (now : String) (t : Nat)
    (hA : st.redisAvail = true) (hG : st.getFail = false) (hS : st.setexFail = false)
    (hrec : st.statusStore (jobKey j.id) = some (Entry.ser j, t)) :
    (processJob st handler w j now).2.statusStore (jobKey j.id)
      = some (expectedEntry handler now j, 3600) := by
  unfold processJob markJobFailed expectedEntry
  cases hh : handler j with
  | ok u =>
    have hspec := updateJobStatus_spec st j.id "completed" now none j t hA hG hS hrec
    simp [hspec, resultTruthy]
  | error e =>
    have hspec := updateJobStatus_spec st j.id "failed" now (some [("error", e)]) j t hA hG hS hrec
    simp [hspec, resultTruthy]

/-- Processing a batch leaves every status key not belonging to a job of the
batch alone. -/
lemma processBatch_frame (handler : JobData → Except String Unit) (now : String) :
    ∀ (batch : List JobData) (st : Store) (w : Worker) (k : String),
      (∀ j ∈ batch, k ≠ jobKey j.id) →
      (processBatch st handler w now batch).2.statusStore k = st.statusStore k := by
  intro batch
  induction batch with
  | nil => intro st w k _; rfl
  | cons jh rest ih =>
    intro st w k hk
    have h2 := ih (processJob st handler w jh now).2 (processJob st handler w jh now).1 k
      (fun j hj => hk j (by simp [hj]))
    have h1 := processJob_frame st handler w jh now k (hk jh (by simp))
    exact h2.trans h1

/-- Processing a batch leaves the client flags alone. -/
lemma processBatch_pres (handler : JobData → Except String Unit) (now : String) :
    ∀ (batch : List JobData) (st : Store) (w : Worker),
      (processBatch st handler w now batch).2.redisAvail = st.redisAvail
      ∧ (processBatch st handler w now batch).2.getFail = st.getFail
      ∧ (processBatch st handler w now batch).2.setexFail = st.setexFail := by
  intro batch
  induction batch with
  | nil => intro st w; exact ⟨rfl, rfl, rfl⟩
  | cons jh rest ih =>
    intro st w
    have h2 := ih (processJob st handler w jh now).2 (processJob st handler w jh now).1
    have h1 := processJob_pres st handler w jh now
    exact ⟨h2.1.trans h1.1, h2.2.1.trans h1.2.1, h2.2.2.trans h1.2.2⟩

/-- On a healthy store holding the status records of a batch of jobs with
pairwise distinct ids, processing the batch leaves, for every job of the
batch, the expected per-outcome record under its key. -/
lemma processBatch_each (handler : JobData → Except String Unit) (now : String) :
    ∀ (batch : List JobData) (st : Store) (w : Worker),
      st.redisAvail = true → st.getFail = false → st.setexFail = false →
      (batch.map JobData.id).Nodup →
      (∀ j ∈ batch, ∃ t, st.statusStore (jobKey j.id) = some (Entry.ser j, t)) →
      ∀ j ∈ batch,
        (processBatch st handler w now batch).2.statusStore (jobKey j.id)
          = some (expectedEntry handler now j, 3600) := by
  intro batch
  induction batch with
  | nil => intro st w _ _ _ _ _ j hj; simp at hj
  | cons jh rest ih =>
    intro st w hA hG hS hnd hrec j hj
    obtain ⟨t0, hrec0⟩ := hrec jh (by simp)
    have hexp : (processJob st handler w jh now).2.statusStore (jobKey jh.id)
        = some (expectedEntry handler now jh, 3600) :=
      processJob_expected st handler w jh now t0 hA hG hS hrec0
    have hpres := processJob_pres st handler w jh now
    have hA1 : (processJob st handler w jh now).2.redisAvail = true := hpres.1.trans hA
    have hG1 : (processJob st handler w jh now).2.getFail = false := hpres.2.1.trans hG
    have hS1 : (processJob st handler w jh now).2.setexFail = false := hpres.2.2.trans hS
    have hnd2 : (jh.id :: rest.map JobData.id).Nodup := by simpa using hnd
    obtain ⟨hnotin, htail⟩ := List.nodup_cons.mp hnd2
    have hkey_ne : ∀ j2 ∈ rest, jobKey j2.id ≠ jobKey jh.id := by
      intro j2 hj2 hcontra
      exact hnotin (jobKey_inj hcontra ▸ List.mem_map_of_mem JobData.id hj2)
    have hrec1 : ∀ j2 ∈ rest, ∃ t,
        (processJob st handler w jh now).2.statusStore (jobKey j2.id)
          = some (Entry.ser j2, t) := by
      intro j2 hj2
      obtain ⟨t2, ht2⟩ := hrec j2 (by simp [hj2])
      exact ⟨t2, (processJob_frame st handler w jh now (jobKey j2.id)
        (hkey_ne j2 hj2)).trans ht2⟩
    rcases (by simpa using hj : j = jh ∨ j ∈ rest) with rfl | hjr
    · have hframe := processBatch_frame handler now rest
        (processJob st handler w j now).2 (processJob st handler w j now).1
        (jobKey j.id) (fun j2 hj2 => (hkey_ne j2 hj2).symm)
      exact hframe.trans hexp
    · exact ih (processJob st handler w jh now).2 (processJob st handler w jh now).1
        hA1 hG1 hS1 htail hrec1 j hjr

/-- C7: in a batch of jobs with pairwise distinct ids, all with live status
records on a healthy store, if exactly one job raises in its handler then
every sibling is still processed and its record is marked completed, while
the raising job is marked failed with the error text — the batch is not
aborted. -/
theorem c7_theorem :
    ∀ (st : Store) (handler : JobData → Except String Unit) (w : Worker)
      (now err : String) (batch : List JobData) (jstar : JobData),
      st.redisAvail = true → st.getFail = false → st.setexFail = false →
      (batch.map JobData.id).Nodup →
      (∀ j ∈ batch, ∃ t, st.statusStore (jobKey j.id) = some (Entry.ser j, t)) →
      jstar ∈ batch →
      handler jstar = .error err →
      (∀ j ∈ batch, j.id ≠ jstar.id → handler j = .ok ()) →
      ∀ j ∈ batch,
        (processBatch st handler w now batch).2.statusStore (jobKey j.id)
          = some ((if j.id = jstar.id
              then Entry.ser
                { j with
                  status := "failed"
                  updated_at := some now
                  result := some [("error", err)] }
              else Entry.ser
                { j with
                  status := "completed"
                  updated_at := some now }), 3600) := by
  intro st handler w now err batch jstar hA hG hS hnd hrec hmem herr hok j hj
  rw [processBatch_each handler now batch st w hA hG hS hnd hrec j hj]
  by_cases hid : j.id = jstar.id
  · have hj_eq : j = jstar :=
      List.inj_on_of_nodup_map hnd hj hmem hid
    subst hj_eq
    simp [expectedEntry, herr, hid]
  · have hokj := hok j hj hid
    simp [expectedEntry, hokj, hid]

/-- C7 witness: the isolation theorem applied to a two-job batch where the
handler raises on the second job; the first is marked completed, the second
failed. -/
theorem c7_witness :
    (processBatch stBatch handlerBoom (mkWorker .FRIEND_REQUESTS 20) "tn"
        [jdA, jdB]).2.statusStore (jobKey jdA.id)
      = some ((if jdA.id = jdB.id
          then Entry.ser
            { jdA with
              status := "failed"
              updated_at := some "tn"
              result := some [("error", "boom")] }
          else Entry.ser
            { jdA with
              status := "completed"
              updated_at := some "tn" }), 3600)
    ∧ (processBatch stBatch handlerBoom (mkWorker .FRIEND_REQUESTS 20) "tn"
        [jdA, jdB]).2.statusStore (jobKey jdB.id)
      = some ((if jdB.id = jdB.id
          then Entry.ser
            { jdB with
              status := "failed"
              updated_at := some "tn"
              result := some [("error", "boom")] }
          else Entry.ser
            { jdB with
              status := "completed"
              updated_at := some "tn" }), 3600) := by
  have h := c7_theorem stBatch handlerBoom (mkWorker .FRIEND_REQUESTS 20) "tn" "boom"
    [jdA, jdB] jdB rfl rfl rfl (by decide)
    (by
      intro j hj
      simp only [List.mem_cons, List.not_mem_nil, or_false] at hj
      rcases hj with rfl | rfl
      · exact ⟨3600, rfl⟩
      · exact ⟨3600, rfl⟩)
    (by simp)
    (by rfl)
    (by
      intro j hj hne
      simp only [List.mem_cons, List.not_mem_nil, or_false] at hj
      rcases hj with rfl | rfl
      · rfl
      · exact absurd rfl hne)
  exact ⟨h jdA (by simp), h jdB (by simp)⟩

end WYD
